import Mathlib

/-!
A shallow embedding of the session
orchestration engine of the Snowflake standalone proxy (`proxy/lib/snowflake.go`), together with proofs of
the specified properties.

External effects (HTTP round trips, the WebRTC library, the relay
WebSocket) are modelled by environment records that record the outcome of
each effectful step; the control flow of the Go functions is translated
faithfully over those outcomes.  Byte strings are `List Nat`.
-/

namespace Snowflake

/-! ## Constants (snowflake.go lines 28-59) -/

/-- `DefaultBrokerURL` constant. -/
def DefaultBrokerURL : String := "https://snowflake-broker.bamsoftware.com/"

/-- `DefaultProbeURL` constant. -/
def DefaultProbeURL : String := "https://snowflake-broker.torproject.net:8443/probe"

/-- `DefaultRelayURL` constant. -/
def DefaultRelayURL : String := "wss://snowflake.bamsoftware.com/"

/-- `DefaultSTUNURL` constant. -/
def DefaultSTUNURL : String := "stun:stun.stunprotocol.org:3478"

/-- `pollInterval = 5 * time.Second`, in seconds. -/
def pollInterval : Nat := 5

/-- `dataChannelTimeout = 20 * time.Second`, in seconds. -/
def dataChannelTimeout : Nat := 20

/-- `readLimit = 100000`: maximum number of bytes read from an HTTP response. -/
def readLimit : Nat := 100000

/-- `sessionIDLength = 16`. -/
def sessionIDLength : Nat := 16

/-- NAT type strings (`NATUnknown`, `NATRestricted`, `NATUnrestricted`). -/
def NATUnknown : String := "unknown"

/-- `NATRestricted`. -/
def NATRestricted : String := "restricted"

/-- `NATUnrestricted`. -/
def NATUnrestricted : String := "unrestricted"

/-! ## Token pool

Modelled from the spec: the token pool (`tokens_t`, `newTokens`, `get`,
`ret`, `count`) lives in `proxy/lib/tokens.go`, which is not among the
given sources.  The spec describes it as a bounded counter of capacity
`C` with free count `f` (`0 ≤ f ≤ C`); `count()` returns the in-use
snapshot `inUse = C − f`. -/
structure Tokens where
  capacity : Nat
  free : Nat
deriving DecidableEq, Repr

/-- Modelled from the spec: `tokens.count()` returns `inUse = C − f`. -/
def Tokens.count (t : Tokens) : Nat := t.capacity - t.free

/-- The `clientsAvailable` expression from `pollOffer`
(snowflake.go line 165): `int((tokens.count() / 8) * 8)`, rounding the
in-use count down to a multiple of 8. -/
def pollNumClients (inUse : Nat) : Nat := inUse / 8 * 8

/-! ## `limitedRead` and `Post` (snowflake.go lines 101-151) -/

/-- Errors that `Post` can surface to its caller. -/
inductive PostErr
  /-- `io.ErrUnexpectedEOF` from `limitedRead` truncation. -/
  | truncated
  /-- `fmt.Errorf("remote returned status code %d", ...)`. -/
  | remoteStatus (code : Nat)
  /-- transport-level failure (`http.NewRequest` or `RoundTrip` error);
  the Go code returns `nil, err` with no body. -/
  | transportErr
deriving DecidableEq, Repr

/-- `limitedRead(r, limit)`: reads through `io.LimitedReader{R: r, N: limit+1}`,
so at most `limit+1` bytes of the body are consumed; if exactly `limit+1`
arrived the result is truncated to `limit` bytes with `io.ErrUnexpectedEOF`.
The body is modelled as the pure byte sequence the reader would deliver. -/
def limitedRead (body : List Nat) (limit : Nat) : List Nat × Option PostErr :=
  let p := body.take (limit + 1)
  if p.length = limit + 1 then (p.take limit, some .truncated) else (p, none)

/-- An HTTP response as seen by `Post`: status code and body bytes. -/
structure HTTPResponse where
  status : Nat
  body : List Nat
deriving DecidableEq, Repr

/-- `SignalingServer.Post`: `none` in place of a response models a
request-construction or `RoundTrip` error (the Go code then returns
`nil, err`); a non-200 status yields the status error and no body;
otherwise the body is read through `limitedRead` with `readLimit`. -/
def Post (resp : Option HTTPResponse) : List Nat × Option PostErr :=
  match resp with
  | none => ([], some .transportErr)
  | some r =>
    if r.status ≠ 200 then ([], some (.remoteStatus r.status))
    else limitedRead r.body readLimit

/-! ## `genSessionID` (snowflake.go lines 92-99) -/

/-- The standard base64 alphabet used by `encoding/base64.StdEncoding`. -/
def b64Alphabet : List Char :=
  ['A','B','C','D','E','F','G','H','I','J','K','L','M','N','O','P','Q','R',
   'S','T','U','V','W','X','Y','Z','a','b','c','d','e','f','g','h','i','j',
   'k','l','m','n','o','p','q','r','s','t','u','v','w','x','y','z','0','1',
   '2','3','4','5','6','7','8','9','+','/']

/-- The alphabet character for a 6-bit value. -/
def b64Char (n : Nat) : Char := b64Alphabet.getD (n % 64) 'A'

/-- `encoding/base64.StdEncoding.EncodeToString`: bytes are consumed in
groups of three, producing four alphabet characters per full group; a
final group of one or two bytes is padded with `'='` to four characters. -/
def b64EncodeStd : List Nat → List Char
  | [] => []
  | [b1] => [b64Char (b1 / 4), b64Char (b1 % 4 * 16), '=', '=']
  | [b1, b2] => [b64Char (b1 / 4), b64Char (b1 % 4 * 16 + b2 / 16),
                 b64Char (b2 % 16 * 4), '=']
  | b1 :: b2 :: b3 :: rest =>
    b64Char (b1 / 4) :: b64Char (b1 % 4 * 16 + b2 / 16) ::
    b64Char (b2 % 16 * 4 + b3 / 64) :: b64Char (b3 % 64) :: b64EncodeStd rest

/-- `strings.TrimRight(s, "=")`: remove every trailing `'='`. -/
def trimEqRight (l : List Char) : List Char :=
  (l.reverse.dropWhile (fun c => c == '=')).reverse

/-- `genSessionID` applied to the 16 random bytes it draws
(snowflake.go lines 92-99): the standard base64 encoding of the buffer
with trailing `'='` padding trimmed. -/
def genSessionID (buf : List Nat) : List Char := trimEqRight (b64EncodeStd buf)

/-! ## The shutdown channel and `Stop` (snowflake.go lines 84, 469-471, 520-523) -/

/-- The observable state of a Go `chan struct\x7b\x7d` used purely as a
close-once gate: the zero value `nil`, an open made channel, or a closed
channel. -/
inductive ChanState
  | nilChan
  | openChan
  | closedChan
deriving DecidableEq, Repr

/-- the Go built-in `close`: closing a nil channel panics and closing an
already-closed channel panics; otherwise the channel becomes closed.
`none` models the panic. -/
def closeChan : ChanState → Option ChanState
  | .openChan => some .closedChan
  | .nilChan => none
  | .closedChan => none

/-- The `SnowflakeProxy` configuration structure (snowflake.go lines
77-85): capacity, STUN/broker/relay URLs, the keep-local-addresses flag,
and the unexported shutdown channel.  `LogOutput io.Writer` is omitted
(never read by the embedded logic). -/
structure SnowflakeProxy where
  Capacity : Nat
  StunURL : String
  RawBrokerURL : String
  KeepLocalAddresses : Bool
  RelayURL : String
  shutdown : ChanState
deriving DecidableEq, Repr

/-- A zero-value `SnowflakeProxy` before `Start`: the shutdown channel is
the nil zero value. -/
def mkSnowflakeProxy (cap : Nat) (stun broker : String) (keep : Bool)
    (relay : String) : SnowflakeProxy :=
  { Capacity := cap, StunURL := stun, RawBrokerURL := broker,
    KeepLocalAddresses := keep, RelayURL := relay, shutdown := .nilChan }

/-- The first statement of `Start` (line 471): `sf.shutdown = make(chan struct\x7b\x7d)`. -/
def startInit (sf : SnowflakeProxy) : SnowflakeProxy :=
  { sf with shutdown := .openChan }

/-- `Stop` (lines 520-523): `close(sf.shutdown)`; `none` models the panic
of `close` on a nil or already-closed channel. -/
def Stop (sf : SnowflakeProxy) : Option SnowflakeProxy :=
  (closeChan sf.shutdown).map (fun c => { sf with shutdown := c })

/-- The probe URL argument `Start` passes to `checkNATType`
(snowflake.go line 502): the compiled-in constant `DefaultProbeURL`,
whatever the configuration holds. -/
def startProbeURL (_sf : SnowflakeProxy) : String := DefaultProbeURL

/-- Modelled from the spec: the spec (§3) ProxyConfig, which lists a
probe URL among the configuration set before `Start` ("broker URL, probe
URL, relay URL").  Used only to compare the configuration surface of the
spec with the `SnowflakeProxy` of the code. -/
structure ProxyConfigSpec where
  capacity : Nat
  stunURL : String
  brokerURL : String
  probeURL : String
  relayURL : String
  keepLocalAddresses : Bool
deriving DecidableEq, Repr

/-- A spec-level configuration corresponds to a `SnowflakeProxy` when
every field the structure in the code has agrees with it (the structure in the code
has no probe-URL field, so `probeURL` is unconstrained). -/
def configMatches (c : ProxyConfigSpec) (sf : SnowflakeProxy) : Prop :=
  sf.Capacity = c.capacity ∧ sf.StunURL = c.stunURL ∧
  sf.RawBrokerURL = c.brokerURL ∧ sf.RelayURL = c.relayURL ∧
  sf.KeepLocalAddresses = c.keepLocalAddresses

instance (c : ProxyConfigSpec) (sf : SnowflakeProxy) :
    Decidable (configMatches c sf) := by
  unfold configMatches; infer_instance

/-! ## `pollOffer` (snowflake.go lines 153-194) -/

/-- The broker response body as `pollOffer` hands it to
`messages.DecodePollResponse`: either bytes that decode to a poll
response carrying the given SDP string, or bytes that fail to decode. -/
inductive RespBytes
  | valid (sdp : String)
  | malformed
deriving DecidableEq, Repr

/-- Modelled from the spec: `messages.DecodePollResponse`
(`common/messages`, not among the given sources) decodes the response
body `{sdp, relayURL}`; an absent (nil) body — which is what `Post`
returns alongside a transport or status error — is not a valid encoding
and fails to decode, as does any malformed body.  `none` is the decode
error. -/
def decodePollResponse : Option RespBytes → Option String
  | none => none
  | some .malformed => none
  | some (.valid sdp) => some sdp

/-- The environment of one iteration of the pollOffer ticker loop:
whether the shutdown gate is closed, whether `messages.EncodePollRequest`
succeeds, the in-use token count read by `tokens.count()`, the response
body `Post` produces (`none` both for a transport error and for a non-200
status, where the Go code returns a nil body), whether `Post` also
returned an error (logged only), and whether
`util.DeserializeSessionDescription` succeeds on a non-empty SDP. -/
structure TickEnv where
  shutdownClosed : Bool
  encodeOk : Bool
  inUse : Nat
  resp : Option RespBytes
  postErr : Bool
  deserializeOk : Bool
deriving DecidableEq, Repr

/-- The outcome of `pollOffer`. -/
inductive PollResult
  /-- a non-empty SDP was decoded and deserialized: the offer is returned. -/
  | offer (sdp : String)
  /-- `pollOffer` returned `nil`. -/
  | noOffer
  /-- the supplied tick environments ran out with the loop still ticking. -/
  | stillPolling
deriving DecidableEq, Repr

/-- One iteration of the pollOffer loop body (lines 160-191): `some r`
means the function returns with `r`, `none` means it falls through to the
next tick. -/
def pollOfferStep (e : TickEnv) : Option PollResult :=
  if e.shutdownClosed then some .noOffer
  else if ¬e.encodeOk then some .noOffer
  else
    match decodePollResponse e.resp with
    | none => some .noOffer
    | some sdp =>
      if sdp ≠ "" then
        if e.deserializeOk then some (.offer sdp) else some .noOffer
      else none

/-- `pollOffer` (lines 153-194) over a finite trace of tick
environments: the loop body runs once immediately and then once per
5-second tick; each iteration either returns or continues. -/
def pollOffer : List TickEnv → PollResult
  | [] => .stillPolling
  | e :: rest =>
    match pollOfferStep e with
    | some r => r
    | none => pollOffer rest

/-! ## SDP sanitization and `sendAnswer` (snowflake.go lines 88-90, 196-227) -/

/-- Coarse classification of a host address of the candidate, mirroring the
predicates of `isRemoteAddress` (line 88): `util.IsLocal`,
`ip.IsUnspecified`, `ip.IsLoopback`. -/
inductive AddrScope
  | publicAddr
  | privateAddr
  | loopbackAddr
  | unspecifiedAddr
deriving DecidableEq, Repr

/-- `isRemoteAddress` (lines 88-90): an address is remote iff it is none
of local (private), unspecified, loopback. -/
def isRemoteAddress : AddrScope → Bool
  | .publicAddr => true
  | _ => false

/-- A line of an SDP text: an ICE candidate line with the classification
of its address, or any other line. -/
inductive SDPLine
  | candidate (addr : AddrScope)
  | attr (s : String)
deriving DecidableEq, Repr

/-- An SDP session description: type tag and lines. -/
structure SessionDescription where
  descType : String
  sdp : List SDPLine
deriving DecidableEq, Repr

/-- Modelled from the spec: `util.StripLocalAddresses` (`common/util`,
not among the given sources) removes from the SDP every ICE candidate
line whose address is in a private/loopback/unspecified range and keeps
everything else. -/
def StripLocalAddresses (l : List SDPLine) : List SDPLine :=
  l.filter fun line =>
    match line with
    | .candidate a => isRemoteAddress a
    | .attr _ => true

/-- The local description `sendAnswer` serializes (lines 198-204): when
`keepLocalAddresses` is unset the SDP is stripped of local candidate
lines, keeping the type tag; otherwise it is the local description
unchanged. -/
def sendAnswerLocalDesc (keepLocalAddresses : Bool)
    (ld : SessionDescription) : SessionDescription :=
  if keepLocalAddresses then ld
  else { descType := ld.descType, sdp := StripLocalAddresses ld.sdp }

/-- The distinct error returns of `sendAnswer` (lines 196-227), in
source order. -/
inductive AnswerErr
  /-- `util.SerializeSessionDescription` failed. -/
  | serializeErr
  /-- `messages.EncodeAnswerRequest` failed. -/
  | encodeErr
  /-- the POST to the broker failed. -/
  | postErr
  /-- `messages.DecodeAnswerResponse` failed. -/
  | decodeErr
  /-- the decoded success flag was false: "broker returned client timeout". -/
  | clientTimeout
deriving DecidableEq, Repr

/-- The environment of one `sendAnswer` call: the outcome of each
effectful step and the decoded success flag. -/
structure AnswerEnv where
  serializeOk : Bool
  encodeOk : Bool
  postOk : Bool
  decodeOk : Bool
  success : Bool
deriving DecidableEq, Repr

/-- `sendAnswer` (lines 196-227): early-returns each error in source
order; a decoded `success = false` is the client-timeout error; `none`
is the nil (success) return. -/
def sendAnswer (e : AnswerEnv) : Option AnswerErr :=
  if ¬e.serializeOk then some .serializeErr
  else if ¬e.encodeOk then some .encodeErr
  else if ¬e.postOk then some .postErr
  else if ¬e.decodeOk then some .decodeErr
  else if ¬e.success then some .clientTimeout
  else none

/-! ## `datachannelHandler` and `runSession` (snowflake.go lines 259-288, 428-464) -/

/-- The environment of a `datachannelHandler` run: whether the relay
WebSocket dial succeeds.  The relay URL re-parse cannot fail for a proxy
that passed the URL validation in `Start`, so it is not an outcome here. -/
structure HandlerEnv where
  dialOk : Bool
deriving DecidableEq, Repr

/-- What a `datachannelHandler` run did: how many times it called
`tokens.ret()`, whether the deferred `conn.Close` ran, and whether the
relay splice (`copyLoop`) was reached. -/
structure HandlerResult where
  tokenRet : Nat
  connClosed : Bool
  ranCopyLoop : Bool
deriving DecidableEq, Repr

/-- `datachannelHandler` (lines 259-288): `defer conn.Close()` and
`defer tokens.ret()` run on every return; a relay dial error returns
early, otherwise the copy loop runs to completion. -/
def datachannelHandler (e : HandlerEnv) : HandlerResult :=
  if ¬e.dialOk then { tokenRet := 1, connClosed := true, ranCopyLoop := false }
  else { tokenRet := 1, connClosed := true, ranCopyLoop := true }

/-- Which `select` arm fires in the runSession wait (lines 454-463):
`dataChan` closed by the `OnDataChannel` callback within the 20-second
`dataChannelTimeout`, or the timeout. -/
inductive Race
  | opened
  | timedOut
deriving DecidableEq, Repr

/-- The terminating paths of one `runSession` run. -/
inductive SessionPath
  /-- `pollOffer` returned nil. -/
  | pollNil
  /-- `makePeerConnectionFromOffer` failed. -/
  | buildErr
  /-- `sendAnswer` failed. -/
  | answerErr
  /-- the data channel never opened within `dataChannelTimeout`. -/
  | dcTimeout
  /-- the data channel opened; the spawned `datachannelHandler` owned the
  connection and finished the relay splice. -/
  | spliceDone
  /-- `pollOffer` was still ticking when its environment trace ran out:
  the session has not terminated. -/
  | stillPolling
deriving DecidableEq, Repr

/-- The environment of one `runSession` run: the tick trace `pollOffer`
consumes, whether `makePeerConnectionFromOffer` succeeds, the
`sendAnswer` environment, which arm of the readiness race fires, and the
handler environment when the data channel opens. -/
structure SessionEnv where
  pollTicks : List TickEnv
  buildOk : Bool
  answerEnv : AnswerEnv
  race : Race
  handlerEnv : HandlerEnv
deriving DecidableEq, Repr

/-- What one `runSession` run did: `tokens.ret()` calls made by the
supervisor itself, `tokens.ret()` calls made by the spawned
`datachannelHandler`, whether the peer connection ended closed, and the
path taken.  `pcClosed` is vacuously true on paths where no peer
connection outlived the step that failed (`makePeerConnectionFromOffer`
closes the connection on its own error paths). -/
structure SessionResult where
  supervisorRet : Nat
  handlerRet : Nat
  pcClosed : Bool
  path : SessionPath
deriving DecidableEq, Repr

/-- Total `tokens.ret()` calls attributable to the session. -/
def SessionResult.tokenReturns (r : SessionResult) : Nat :=
  r.supervisorRet + r.handlerRet

/-- `runSession` (lines 428-464): poll an offer (nil ⇒ return token),
build the peer connection (error ⇒ return token), send the answer
(error ⇒ close the peer connection and return token), then race the
`dataChan` gate against `dataChannelTimeout`: timeout ⇒ close the peer
connection and return token; opened ⇒ the handler spawned by
`OnDataChannel` finishes the splice and returns the token via its defers. -/
def runSession (e : SessionEnv) : SessionResult :=
  match pollOffer e.pollTicks with
  | .stillPolling =>
    { supervisorRet := 0, handlerRet := 0, pcClosed := false,
      path := .stillPolling }
  | .noOffer =>
    { supervisorRet := 1, handlerRet := 0, pcClosed := true, path := .pollNil }
  | .offer _ =>
    if ¬e.buildOk then
      { supervisorRet := 1, handlerRet := 0, pcClosed := true,
        path := .buildErr }
    else
      match sendAnswer e.answerEnv with
      | some _ =>
        { supervisorRet := 1, handlerRet := 0, pcClosed := true,
          path := .answerErr }
      | none =>
        match e.race with
        | .timedOut =>
          { supervisorRet := 1, handlerRet := 0, pcClosed := true,
            path := .dcTimeout }
        | .opened =>
          let h := datachannelHandler e.handlerEnv
          { supervisorRet := 0, handlerRet := h.tokenRet,
            pcClosed := h.connClosed, path := .spliceDone }

/-! ## `checkNATType` (snowflake.go lines 525-586) -/

/-- The environment of one `checkNATType` run: the outcome of each
effectful step, in source order, and the readiness race.  `parseOk` is
`newSignalingServer(probeURL)`: on failure the Go code only logs and
continues with a nil `probe`, so the later `probe.Post` dereferences nil
and panics. -/
structure ProbeEnv where
  parseOk : Bool
  newPCOk : Bool
  serializeOk : Bool
  encodeOk : Bool
  postOk : Bool
  decodeOk : Bool
  deserializeOk : Bool
  setRemoteOk : Bool
  race : Race
deriving DecidableEq, Repr

/-- Every step of the probe before the readiness race succeeded. -/
def ProbeEnv.allOk (e : ProbeEnv) : Bool :=
  e.parseOk && e.newPCOk && e.serializeOk && e.encodeOk && e.postOk &&
  e.decodeOk && e.deserializeOk && e.setRemoteOk

/-- What a `checkNATType` run did: the value of `currentNATType`
afterwards, whether the final `pc.Close` ran, and whether the run
panicked (nil `probe` dereference). -/
structure ProbeResult where
  natType : String
  pcClosed : Bool
  panicked : Bool
deriving DecidableEq, Repr

/-- `checkNATType` (lines 525-586) given the prior `currentNATType`:
each failing step logs and returns with `currentNATType` untouched; when
every step succeeds, `OnOpen` within `dataChannelTimeout` sets
`unrestricted`, the timeout sets `restricted`, and `pc.Close()` runs on
either outcome.  A probe-URL parse failure is only logged, so the run
reaches `probe.Post` with a nil receiver and panics. -/
def checkNATType (prior : String) (e : ProbeEnv) : ProbeResult :=
  if ¬e.newPCOk then { natType := prior, pcClosed := false, panicked := false }
  else if ¬e.serializeOk then
    { natType := prior, pcClosed := false, panicked := false }
  else if ¬e.encodeOk then
    { natType := prior, pcClosed := false, panicked := false }
  else if ¬e.parseOk then
    { natType := prior, pcClosed := false, panicked := true }
  else if ¬e.postOk then
    { natType := prior, pcClosed := false, panicked := false }
  else if ¬e.decodeOk then
    { natType := prior, pcClosed := false, panicked := false }
  else if ¬e.deserializeOk then
    { natType := prior, pcClosed := false, panicked := false }
  else if ¬e.setRemoteOk then
    { natType := prior, pcClosed := false, panicked := false }
  else
    match e.race with
    | .opened =>
      { natType := NATUnrestricted, pcClosed := true, panicked := false }
    | .timedOut =>
      { natType := NATRestricted, pcClosed := true, panicked := false }

/-! ## Helper lemmas -/

/-- `limitedRead` never returns more than `limit` bytes. -/
theorem limitedRead_length_le (body : List Nat) (limit : Nat) :
    (limitedRead body limit).1.length ≤ limit := by
  unfold limitedRead
  by_cases h : (body.take (limit + 1)).length = limit + 1
  · simp [h, List.length_take]
  · have hl : (body.take (limit + 1)).length ≤ limit + 1 := by
      simp [List.length_take]
    simp only [h, if_false]
    omega

/-- When at least `limit + 1` body bytes are available, `limitedRead`
returns exactly the first `limit` bytes with the truncation error. -/
theorem limitedRead_trunc (body : List Nat) (limit : Nat)
    (h : limit + 1 ≤ body.length) :
    limitedRead body limit = (body.take limit, some .truncated) := by
  unfold limitedRead
  have h1 : (body.take (limit + 1)).length = limit + 1 := by
    simp [List.length_take]; omega
  have h2 : (body.take (limit + 1)).take limit = body.take limit := by
    rw [List.take_take]; congr 1; omega
  simp [h1, h2]

/-- No base64 alphabet character is the padding character. -/
theorem b64Char_beq_eq_false (n : Nat) : (b64Char n == '=') = false := by
  have h : n % 64 < 64 := Nat.mod_lt _ (by norm_num)
  unfold b64Char
  generalize n % 64 = m at h ⊢
  interval_cases m <;> decide

/-- Trimming trailing padding from a list that ends in a non-padding
character followed by two padding characters drops exactly the padding. -/
theorem trimEqRight_pad2 (l : List Char) (x y : Char)
    (h : (y == '=') = false) :
    trimEqRight (l ++ [x, y, '=', '=']) = l ++ [x, y] := by
  unfold trimEqRight
  simp [List.dropWhile, h]

/-! ## Claim theorems -/

/-- C6: for every poll request, the transmitted `clientsAvailable` equals
`floor(tokens.count()/8)*8`; it is a multiple of 8 and never exceeds the
in-use count of the pool. -/
theorem pollNumClients_buckets (t : Tokens) :
    pollNumClients t.count = t.count / 8 * 8 ∧
    8 ∣ pollNumClients t.count ∧
    pollNumClients t.count ≤ t.count :=
  ⟨rfl, ⟨t.count / 8, Nat.mul_comm _ _⟩, Nat.div_mul_le_self _ _⟩

/-- C4: for a 200 response, `Post` returns at most `readLimit` body
bytes; when the body reaches `readLimit + 1` bytes the result is exactly
the first `readLimit` bytes with the truncation error; a non-200 status
yields the status error and no body. -/
theorem Post_body_limits (st : Nat) (body : List Nat) :
    (st = 200 → (Post (some ⟨st, body⟩)).1.length ≤ readLimit) ∧
    (st = 200 → readLimit + 1 ≤ body.length →
      Post (some ⟨st, body⟩) = (body.take readLimit, some .truncated)) ∧
    (st ≠ 200 → Post (some ⟨st, body⟩) = ([], some (.remoteStatus st))) := by
  refine ⟨?_, ?_, ?_⟩
  · intro h; subst h
    simpa [Post] using limitedRead_length_le body readLimit
  · intro h hlen; subst h
    simpa [Post] using limitedRead_trunc body readLimit hlen
  · intro h
    simp [Post, h]

/-- Witness for C4 at a 100001-byte body and at a 404 status. -/
theorem Post_body_limits_witness :
    (Post (some ⟨200, List.replicate (readLimit + 1) 7⟩)).1.length ≤ readLimit ∧
    Post (some ⟨200, List.replicate (readLimit + 1) 7⟩) =
      ((List.replicate (readLimit + 1) 7).take readLimit, some .truncated) ∧
    Post (some ⟨404, [1, 2, 3]⟩) = ([], some (.remoteStatus 404)) :=
  ⟨(Post_body_limits 200 _).1 rfl,
   (Post_body_limits 200 _).2.1 rfl (by simp),
   (Post_body_limits 404 _).2.2 (by decide)⟩

/-- C9: for every 16-byte input, `genSessionID` is the standard base64
encoding of those bytes with trailing padding removed, and its length is
exactly 22 characters. -/
theorem genSessionID_base64_length
    (b0 b1 b2 b3 b4 b5 b6 b7 b8 b9 b10 b11 b12 b13 b14 b15 : Nat) :
    genSessionID [b0,b1,b2,b3,b4,b5,b6,b7,b8,b9,b10,b11,b12,b13,b14,b15] =
      trimEqRight
        (b64EncodeStd [b0,b1,b2,b3,b4,b5,b6,b7,b8,b9,b10,b11,b12,b13,b14,b15]) ∧
    (genSessionID
        [b0,b1,b2,b3,b4,b5,b6,b7,b8,b9,b10,b11,b12,b13,b14,b15]).length = 22 := by
  refine ⟨rfl, ?_⟩
  have hexp : b64EncodeStd
      [b0,b1,b2,b3,b4,b5,b6,b7,b8,b9,b10,b11,b12,b13,b14,b15] =
      [b64Char (b0 / 4), b64Char (b0 % 4 * 16 + b1 / 16),
       b64Char (b1 % 16 * 4 + b2 / 64), b64Char (b2 % 64),
       b64Char (b3 / 4), b64Char (b3 % 4 * 16 + b4 / 16),
       b64Char (b4 % 16 * 4 + b5 / 64), b64Char (b5 % 64),
       b64Char (b6 / 4), b64Char (b6 % 4 * 16 + b7 / 16),
       b64Char (b7 % 16 * 4 + b8 / 64), b64Char (b8 % 64),
       b64Char (b9 / 4), b64Char (b9 % 4 * 16 + b10 / 16),
       b64Char (b10 % 16 * 4 + b11 / 64), b64Char (b11 % 64),
       b64Char (b12 / 4), b64Char (b12 % 4 * 16 + b13 / 16),
       b64Char (b13 % 16 * 4 + b14 / 64), b64Char (b14 % 64)] ++
      [b64Char (b15 / 4), b64Char (b15 % 4 * 16), '=', '='] := rfl
  rw [genSessionID, hexp, trimEqRight_pad2 _ _ _ (b64Char_beq_eq_false _)]
  simp

/-- C10: `Stop` before `Start` closes the nil shutdown channel and
panics; a second `Stop` closes the already-closed channel and panics; a
first `Stop` after `Start` succeeds. -/
theorem Stop_double_panics (sf : SnowflakeProxy) :
    (sf.shutdown = ChanState.nilChan → Stop sf = none) ∧
    (∀ t, Stop sf = some t → Stop t = none) ∧
    Stop (startInit sf) ≠ none := by
  refine ⟨?_, ?_, ?_⟩
  · intro h; simp [Stop, h, closeChan]
  · intro t h
    cases hs : sf.shutdown <;> simp [Stop, hs, closeChan] at h
    subst h
    simp [Stop, closeChan]
  · simp [Stop, startInit, closeChan]

/-- Witness for C10: a concrete proxy value, stopped before start and
stopped twice. -/
theorem Stop_double_panics_witness :
    Stop (mkSnowflakeProxy 1 DefaultSTUNURL DefaultBrokerURL false
      DefaultRelayURL) = none ∧
    Stop { mkSnowflakeProxy 1 DefaultSTUNURL DefaultBrokerURL false
      DefaultRelayURL with shutdown := ChanState.closedChan } = none :=
  ⟨(Stop_double_panics _).1 rfl,
   (Stop_double_panics (startInit (mkSnowflakeProxy 1 DefaultSTUNURL
      DefaultBrokerURL false DefaultRelayURL))).2.1 _ rfl⟩

/-- C1: every terminating path of `runSession` — nil offer, peer
connection build error, answer error, data-channel readiness timeout,
and the relay splice finishing — returns the acquired token exactly
once, counting both the supervisor and the spawned handler. -/
theorem runSession_token_once (e : SessionEnv)
    (h : pollOffer e.pollTicks ≠ PollResult.stillPolling) :
    (runSession e).tokenReturns = 1 := by
  unfold runSession
  cases hp : pollOffer e.pollTicks with
  | stillPolling => exact absurd hp h
  | noOffer => rfl
  | offer sdp =>
    by_cases hb : e.buildOk
    · cases ha : sendAnswer e.answerEnv with
      | some err => simp [hb, ha, SessionResult.tokenReturns]
      | none =>
        cases hr : e.race with
        | timedOut => simp [hb, ha, hr, SessionResult.tokenReturns]
        | opened =>
          by_cases hd : e.handlerEnv.dialOk <;>
            simp [hb, ha, hr, hd, SessionResult.tokenReturns,
              datachannelHandler]
    · simp [hb, SessionResult.tokenReturns]

/-- Witness for C1: a session that receives an offer, builds the
connection, delivers the answer, and finishes the splice. -/
theorem runSession_token_once_witness :
    (runSession
      { pollTicks := [{ shutdownClosed := false, encodeOk := true, inUse := 0,
                        resp := some (.valid "offer"), postErr := false,
                        deserializeOk := true }],
        buildOk := true,
        answerEnv := { serializeOk := true, encodeOk := true, postOk := true,
                       decodeOk := true, success := true },
        race := .opened,
        handlerEnv := { dialOk := true } }).tokenReturns = 1 :=
  runSession_token_once _ (by decide)

/-- C2 counterexample: on a tick with a transport error (nil body, no
shutdown, encoding fine), `pollOffer` returns nil on that very tick
instead of continuing with the next tick of the ticker, because the nil
body fails to decode. -/
theorem pollOffer_transport_counterexample :
    pollOffer [{ shutdownClosed := false, encodeOk := true, inUse := 0,
                 resp := none, postErr := true, deserializeOk := true }] =
      PollResult.noOffer ∧
    pollOffer [] = PollResult.stillPolling ∧
    PollResult.noOffer ≠ PollResult.stillPolling := by decide

/-- C2 (amended): `pollOffer` returns nil when the shutdown gate is
closed; when the poll request fails to encode; when a transport error
leaves a nil body that fails to decode, so the same tick returns nil
(transport errors are not soft); when the body is malformed; and when a
non-empty SDP fails to deserialize.  An iteration falls through to the
next tick of the ticker exactly when a response decodes to an empty
SDP. -/
theorem pollOffer_nil_conditions (e : TickEnv) (rest : List TickEnv) :
    (e.shutdownClosed = true → pollOffer (e :: rest) = PollResult.noOffer) ∧
    (e.shutdownClosed = false → e.encodeOk = false →
      pollOffer (e :: rest) = PollResult.noOffer) ∧
    (e.shutdownClosed = false → e.encodeOk = true → e.resp = none →
      pollOffer (e :: rest) = PollResult.noOffer) ∧
    (e.shutdownClosed = false → e.encodeOk = true →
      e.resp = some RespBytes.malformed →
      pollOffer (e :: rest) = PollResult.noOffer) ∧
    (∀ sdp, e.shutdownClosed = false → e.encodeOk = true →
      e.resp = some (RespBytes.valid sdp) → sdp ≠ "" →
      e.deserializeOk = false →
      pollOffer (e :: rest) = PollResult.noOffer) ∧
    (e.shutdownClosed = false → e.encodeOk = true →
      e.resp = some (RespBytes.valid "") →
      pollOffer (e :: rest) = pollOffer rest) ∧
    (pollOfferStep e = none ↔
      e.shutdownClosed = false ∧ e.encodeOk = true ∧
      e.resp = some (RespBytes.valid "")) := by
  obtain ⟨sh, enc, iu, resp, perr, des⟩ := e
  refine ⟨?_, ?_, ?_, ?_, ?_, ?_, ?_⟩
  · intro h1; simp only at h1; subst h1
    simp [pollOffer, pollOfferStep]
  · intro h1 h2; simp only at h1 h2; subst h1; subst h2
    simp [pollOffer, pollOfferStep]
  · intro h1 h2 h3; simp only at h1 h2 h3; subst h1; subst h2; subst h3
    simp [pollOffer, pollOfferStep, decodePollResponse]
  · intro h1 h2 h3; simp only at h1 h2 h3; subst h1; subst h2; subst h3
    simp [pollOffer, pollOfferStep, decodePollResponse]
  · intro sdp h1 h2 h3 h4 h5; simp only at h1 h2 h3 h5
    subst h1; subst h2; subst h3; subst h5
    simp [pollOffer, pollOfferStep, decodePollResponse, h4]
  · intro h1 h2 h3; simp only at h1 h2 h3; subst h1; subst h2; subst h3
    simp [pollOffer, pollOfferStep, decodePollResponse]
  · cases sh
    · cases enc
      · simp [pollOfferStep]
      · rcases resp with _ | r
        · simp [pollOfferStep, decodePollResponse]
        · cases r with
          | malformed => simp [pollOfferStep, decodePollResponse]
          | valid s =>
            by_cases hs : s = "" <;> cases des <;>
              simp [pollOfferStep, decodePollResponse, hs]
    · simp [pollOfferStep]

/-- Witness for the amended C2, one concrete tick per condition:
shutdown, encode failure, transport error, malformed body, deserialize
failure on a non-empty SDP, the empty-SDP fall-through, and the
exclusivity of the fall-through condition. -/
theorem pollOffer_nil_conditions_witness :
    pollOffer [{ shutdownClosed := true, encodeOk := true, inUse := 0,
                 resp := some (.valid "x"), postErr := false,
                 deserializeOk := true }] = PollResult.noOffer ∧
    pollOffer [{ shutdownClosed := false, encodeOk := false, inUse := 0,
                 resp := some (.valid "x"), postErr := false,
                 deserializeOk := true }] = PollResult.noOffer ∧
    pollOffer [{ shutdownClosed := false, encodeOk := true, inUse := 3,
                 resp := none, postErr := true,
                 deserializeOk := true }] = PollResult.noOffer ∧
    pollOffer [{ shutdownClosed := false, encodeOk := true, inUse := 0,
                 resp := some .malformed, postErr := false,
                 deserializeOk := true }] = PollResult.noOffer ∧
    pollOffer [{ shutdownClosed := false, encodeOk := true, inUse := 0,
                 resp := some (.valid "x"), postErr := false,
                 deserializeOk := false }] = PollResult.noOffer ∧
    pollOffer [{ shutdownClosed := false, encodeOk := true, inUse := 0,
                 resp := some (.valid ""), postErr := false,
                 deserializeOk := true }] = pollOffer [] ∧
    pollOfferStep { shutdownClosed := false, encodeOk := true, inUse := 0,
                    resp := some (.valid ""), postErr := false,
                    deserializeOk := true } = none :=
  ⟨(pollOffer_nil_conditions _ _).1 rfl,
   (pollOffer_nil_conditions _ _).2.1 rfl rfl,
   (pollOffer_nil_conditions _ _).2.2.1 rfl rfl rfl,
   (pollOffer_nil_conditions _ _).2.2.2.1 rfl rfl rfl,
   (pollOffer_nil_conditions _ _).2.2.2.2.1 "x" rfl rfl rfl (by decide) rfl,
   (pollOffer_nil_conditions _ _).2.2.2.2.2.1 rfl rfl rfl,
   (pollOffer_nil_conditions _ []).2.2.2.2.2.2.mpr ⟨rfl, rfl, rfl⟩⟩

/-- C3 counterexample: a spec-level configuration carrying a probe URL
different from the default matches a concrete `SnowflakeProxy`, yet
`Start` passes `checkNATType` the compiled-in `DefaultProbeURL`, not the
configured probe URL. -/
theorem startProbeURL_counterexample :
    configMatches
      { capacity := 2, stunURL := DefaultSTUNURL, brokerURL := DefaultBrokerURL,
        probeURL := "https://probe.example.com/", relayURL := DefaultRelayURL,
        keepLocalAddresses := false }
      (mkSnowflakeProxy 2 DefaultSTUNURL DefaultBrokerURL false
        DefaultRelayURL) ∧
    startProbeURL (mkSnowflakeProxy 2 DefaultSTUNURL DefaultBrokerURL false
      DefaultRelayURL) = DefaultProbeURL ∧
    DefaultProbeURL ≠ "https://probe.example.com/" := by decide

/-- C3 (amended): the NAT prober always posts to the compiled-in
`DefaultProbeURL`; `SnowflakeProxy` has no probe-URL field and the probe
endpoint is not configurable. -/
theorem startProbeURL_constant (sf : SnowflakeProxy) :
    startProbeURL sf = DefaultProbeURL := rfl

/-- C5: after the remote description is set, `OnOpen` within the
20-second deadline makes `currentNATType` unrestricted, the deadline
first makes it restricted, the peer connection is closed exactly on
those two outcomes, and every error path leaves `currentNATType` at its
prior value. -/
theorem checkNATType_outcome (prior : String) (e : ProbeEnv) :
    (checkNATType prior e).natType =
      (if e.allOk then
        match e.race with
        | .opened => NATUnrestricted
        | .timedOut => NATRestricted
       else prior) ∧
    (checkNATType prior e).pcClosed = e.allOk := by
  obtain ⟨p, npc, ser, enc, po, dec, des, sr, r⟩ := e
  cases p <;> cases npc <;> cases ser <;> cases enc <;> cases po <;>
    cases dec <;> cases des <;> cases sr <;> cases r <;>
    simp [checkNATType, ProbeEnv.allOk]

/-- C7: with `keepLocalAddresses = false` the serialized answer contains
no ICE candidate line whose address is private, loopback, or
unspecified; with `keepLocalAddresses = true` the local description is
serialized unchanged. -/
theorem sendAnswer_strips_local (keep : Bool) (ld : SessionDescription) :
    (keep = false → ∀ a : AddrScope, isRemoteAddress a = false →
      SDPLine.candidate a ∉ (sendAnswerLocalDesc keep ld).sdp) ∧
    (keep = true → sendAnswerLocalDesc keep ld = ld) := by
  constructor
  · intro h a ha hmem
    subst h
    simp only [sendAnswerLocalDesc, Bool.false_eq_true, if_false,
      StripLocalAddresses, List.mem_filter] at hmem
    have hkept := hmem.2
    rw [ha] at hkept
    exact Bool.false_ne_true hkept
  · intro h; simp [sendAnswerLocalDesc, h]

/-- Witness for C7: a private candidate is absent from a stripped
answer; a kept answer is unchanged. -/
theorem sendAnswer_strips_local_witness :
    SDPLine.candidate .privateAddr ∉
      (sendAnswerLocalDesc false
        { descType := "answer",
          sdp := [SDPLine.candidate .privateAddr, SDPLine.attr "m=audio",
                  SDPLine.candidate .publicAddr] }).sdp ∧
    sendAnswerLocalDesc true
        { descType := "answer", sdp := [SDPLine.candidate .loopbackAddr] } =
      { descType := "answer", sdp := [SDPLine.candidate .loopbackAddr] } :=
  ⟨(sendAnswer_strips_local false _).1 rfl _ rfl,
   (sendAnswer_strips_local true _).2 rfl⟩

/-- C8: `sendAnswer` fails exactly when serialization, encoding, the
POST, or decoding fails or the decoded success flag is false; an
all-success run with `success = false` is the client-timeout error; and
on any `sendAnswer` error the supervisor closes the peer connection and
returns the token itself. -/
theorem sendAnswer_err_characterization (e : AnswerEnv) (se : SessionEnv) :
    (sendAnswer e ≠ none ↔
      (e.serializeOk = false ∨ e.encodeOk = false ∨ e.postOk = false ∨
       e.decodeOk = false ∨ e.success = false)) ∧
    (e.serializeOk = true → e.encodeOk = true → e.postOk = true →
      e.decodeOk = true → e.success = false →
      sendAnswer e = some .clientTimeout) ∧
    (∀ sdp err, pollOffer se.pollTicks = PollResult.offer sdp →
      se.buildOk = true → sendAnswer se.answerEnv = some err →
      runSession se =
        { supervisorRet := 1, handlerRet := 0, pcClosed := true,
          path := .answerErr }) := by
  refine ⟨?_, ?_, ?_⟩
  · obtain ⟨s1, s2, s3, s4, s5⟩ := e
    cases s1 <;> cases s2 <;> cases s3 <;> cases s4 <;> cases s5 <;>
      simp [sendAnswer]
  · intro h1 h2 h3 h4 h5
    simp [sendAnswer, h1, h2, h3, h4, h5]
  · intro sdp err hp hb ha
    simp [runSession, hp, hb, ha]

/-- Witness for C8: a decode failure is an error, an all-success run
with a false flag is the client timeout, and the supervisor path on an
answer error returns the token once and closes the connection. -/
theorem sendAnswer_err_characterization_witness :
    sendAnswer { serializeOk := true, encodeOk := true, postOk := true,
                 decodeOk := false, success := true } ≠ none ∧
    sendAnswer { serializeOk := true, encodeOk := true, postOk := true,
                 decodeOk := true, success := false } =
      some .clientTimeout ∧
    runSession
      { pollTicks := [{ shutdownClosed := false, encodeOk := true, inUse := 0,
                        resp := some (.valid "offer"), postErr := false,
                        deserializeOk := true }],
        buildOk := true,
        answerEnv := { serializeOk := true, encodeOk := true, postOk := true,
                       decodeOk := true, success := false },
        race := .opened,
        handlerEnv := { dialOk := true } } =
      { supervisorRet := 1, handlerRet := 0, pcClosed := true,
        path := .answerErr } :=
  ⟨(sendAnswer_err_characterization
      { serializeOk := true, encodeOk := true, postOk := true,
        decodeOk := false, success := true }
      { pollTicks := [], buildOk := true,
        answerEnv := { serializeOk := true, encodeOk := true, postOk := true,
                       decodeOk := true, success := true },
        race := .opened, handlerEnv := { dialOk := true } }).1.mpr
      (Or.inr (Or.inr (Or.inr (Or.inl rfl)))),
   (sendAnswer_err_characterization
      { serializeOk := true, encodeOk := true, postOk := true,
        decodeOk := true, success := false }
      { pollTicks := [], buildOk := true,
        answerEnv := { serializeOk := true, encodeOk := true, postOk := true,
                       decodeOk := true, success := true },
        race := .opened, handlerEnv := { dialOk := true } }).2.1
      rfl rfl rfl rfl rfl,
   (sendAnswer_err_characterization
      { serializeOk := true, encodeOk := true, postOk := true,
        decodeOk := true, success := false }
      { pollTicks := [{ shutdownClosed := false, encodeOk := true, inUse := 0,
                        resp := some (.valid "offer"), postErr := false,
                        deserializeOk := true }],
        buildOk := true,
        answerEnv := { serializeOk := true, encodeOk := true, postOk := true,
                       decodeOk := true, success := false },
        race := .opened,
        handlerEnv := { dialOk := true } }).2.2
      "offer" .clientTimeout (by decide) rfl (by decide)⟩

end Snowflake
